import Mathlib

/-
Verification of the agent-invocation retry component of
"Lab 3/3.2 Text to SQL" (functions `SQLHandler` and `invoke_agent`).

Modelling conventions (shallow embedding):
  * An agent invocation (`agent.invoke({"input": prompt}, {"callbacks": [handler]})`
    followed by `response['output']`) is abstracted by a behaviour
    `agentOutcome : Nat → Outcome`: for each attempt index (0-based) it yields
    either a fault (an exception; `desc` is `str(e)`) or a success carrying the
    response's `output` field.  In both cases it also carries the list of
    callback `Action`s that fired on the shared handler during that invocation
    (callbacks run before the exception is raised, so faulting attempts also
    mutate the handler).
  * `random.uniform(0, 2)` / `random.uniform(0, 1)` are abstracted by an
    ambient jitter stream `jitter : Nat → ℚ`, consulted once per sleep.
  * `time.sleep(delay)` is modelled by recording `delay` in the `sleeps` trace;
    the `attempts` trace field counts agent invocations.
  * `agent` and `question` (and `prompt_template.invoke(question)`) only feed
    the external invocation, so they are absorbed into `agentOutcome`.
  * Python's `max_retries` is an `int`, modelled as `Int`; the local loop
    counter `attempt` starts at 0 and only increases, so it is a `Nat`.
-/

namespace TextToSQL

/-- Name of the SQL tool checked by the callback handler (`"sql_db_query"`). -/
def sql_db_query_tool : String := "sql_db_query"

/-- A callback action delivered to `SQLHandler.on_agent_action`: the tool name
and the tool input (`action.tool`, `action.tool_input`). -/
structure Action where
  tool : String
  tool_input : String

deriving instance DecidableEq for TextToSQL.Action

/-- State of the `SQLHandler` callback handler: `self.sql_query`, initially
`None`. -/
structure SQLHandler where
  sql_query : Option String

deriving instance DecidableEq for TextToSQL.SQLHandler

/-- `SQLHandler.__init__`: `self.sql_query = None`. -/
def SQLHandler.init : SQLHandler := ⟨none⟩

/-- `SQLHandler.on_agent_action`: if `action.tool == "sql_db_query"` overwrite
`self.sql_query` with `action.tool_input`, otherwise leave the state alone. -/
def SQLHandler.on_agent_action (handler : SQLHandler) (action : Action) : SQLHandler :=
  if action.tool = sql_db_query_tool then ⟨some action.tool_input⟩ else handler

/-- The outcome of one invocation of the agent: the callback actions fired
during the invocation, and either an exception (`fault`, with `str(e)` as
`desc`) or a successful response (`success`, with the `output` field). -/
inductive Outcome where
  | fault (actions : List Action) (desc : String)
  | success (actions : List Action) (output : String)

deriving instance DecidableEq for TextToSQL.Outcome

/-- Whether the outcome is a fault (the invocation raised an exception). -/
def Outcome.isFault : Outcome → Bool
  | .fault _ _ => true
  | .success _ _ => false

/-- The callback actions fired during the invocation. -/
def Outcome.actions : Outcome → List Action
  | .fault a _ => a
  | .success a _ => a

/-- The exception text of a faulting outcome (`""` for a success; only ever
used under an `isFault` hypothesis). -/
def Outcome.faultDesc : Outcome → String
  | .fault _ d => d
  | .success _ _ => ""

/-- First throttling marker searched for in `str(e)`. -/
def throttlingMarker1 : String := "ThrottlingException"

/-- Second throttling marker searched for in `str(e)`. -/
def throttlingMarker2 : String := "Too many requests"

/-- Whether `pat` is a leading block of `l` (helper for the substring test). -/
def leadsWith : List Char → List Char → Bool
  | [], _ => true
  | _ :: _, [] => false
  | a :: pa, b :: lb => (a == b) && leadsWith pa lb

/-- Whether `pat` occurs contiguously inside `l`. -/
def occursIn (pat : List Char) : List Char → Bool
  | [] => leadsWith pat []
  | b :: lb => leadsWith pat (b :: lb) || occursIn pat lb

/-- Python's substring operator `pat in s` on strings. -/
def pyIn (pat s : String) : Bool := occursIn pat.toList s.toList

/-- `is_throttling = "ThrottlingException" in str(e) or "Too many requests" in str(e)`. -/
def is_throttling (s : String) : Bool := pyIn throttlingMarker1 s || pyIn throttlingMarker2 s

/-- Python's `str(None)`. -/
def noneLiteral : String := "None"

/-- `str(last_exception)`: the exception's text, or `"None"` when no exception
has been stored yet. -/
def strOfLastException : Option String → String
  | none => noneLiteral
  | some s => s

/-- Fixed terminal message used when the last exception is classified as
throttling. -/
def throttlingTerminalText : String := "Unable to get a response from the agent due to service throttling. The service is currently experiencing high demand. Please try again in a few minutes or reduce request frequency."

/-- Leading part of the generic terminal message (before `{max_retries}`). -/
def genericTerminalText1 : String := "Unable to get a response from the agent after "

/-- Middle part of the generic terminal message (before `{str(last_exception)}`). -/
def genericTerminalText2 : String := " attempts. Error: "

/-- The terminal `error_message` built after the retry loop exits without a
success: the throttling-specific fixed text when `str(last_exception)` contains
a throttling marker, otherwise the f-string
`"Unable to get a response from the agent after {max_retries} attempts. Error: {str(last_exception)}"`. -/
def terminalMessage (max_retries : Int) (last_exception : Option String) : String :=
  if is_throttling (strOfLastException last_exception) then throttlingTerminalText
  else genericTerminalText1 ++ toString max_retries ++ genericTerminalText2
    ++ strOfLastException last_exception

/-- The value returned by `invoke_agent`: either the success exit
`return sqlquery, output` or the failure exit `return None, error_message`. -/
inductive InvokeResult where
  | success (sql_query : Option String) (output : String)
  | failure (error_message : String)

deriving instance DecidableEq for TextToSQL.InvokeResult

/-- The literal Python pair returned to the caller: a success is
`(sqlquery, output)` and a failure is `(None, error_message)`. -/
def InvokeResult.toPair : InvokeResult → Option String × String
  | .success q o => (q, o)
  | .failure m => (none, m)

/-- Whether the result came from the success exit. -/
def InvokeResult.isSuccessShape : InvokeResult → Bool
  | .success _ _ => true
  | .failure _ => false

/-- Whether the result came from the failure exit. -/
def InvokeResult.isFailureShape : InvokeResult → Bool
  | .success _ _ => false
  | .failure _ => true

/-- One run of `invoke_agent`: the returned value, the trace of the delays
passed to `time.sleep`, and the number of agent invocations performed. -/
structure InvokeOutcome where
  result : InvokeResult
  sleeps : List ℚ
  attempts : Nat

deriving instance DecidableEq for TextToSQL.InvokeOutcome

/-- The retry loop `while attempt <= max_retries: ...` of `invoke_agent`,
entered with the current loop counter `attempt`, shared `handler` state and
`last_exception`.  On a success the captured `handler.sql_query` and the
response output are returned; on a fault the counter is incremented, the loop
breaks when it exceeds `max_retries`, and otherwise a backoff delay (throttling
curve base×4^(attempt-1)+uniform(0,2), standard curve
base×2^(attempt-1)+uniform(0,1), each capped at `max_delay`) is slept before
retrying.  After the loop, the terminal `error_message` is built from
`str(last_exception)` and returned with `None` for the query. -/
def invoke_go (agentOutcome : Nat → Outcome) (jitter : Nat → ℚ)
    (max_retries : Int) (base_delay max_delay : ℚ)
    (attempt : Nat) (handler : SQLHandler) (last_exception : Option String) :
    InvokeOutcome :=
  if _hcond : (attempt : Int) ≤ max_retries then
    match agentOutcome attempt with
    | .success actions output =>
      let handler1 := actions.foldl SQLHandler.on_agent_action handler
      ⟨.success handler1.sql_query output, [], 1⟩
    | .fault actions desc =>
      let handler1 := actions.foldl SQLHandler.on_agent_action handler
      if hlim : (((attempt + 1 : Nat)) : Int) > max_retries then
        ⟨.failure (terminalMessage max_retries (some desc)), [], 1⟩
      else
        let delay : ℚ :=
          if is_throttling desc then
            min (base_delay * 4 ^ ((attempt + 1) - 1) + jitter attempt) max_delay
          else
            min (base_delay * 2 ^ ((attempt + 1) - 1) + jitter attempt) max_delay
        let rest := invoke_go agentOutcome jitter max_retries base_delay max_delay
          (attempt + 1) handler1 (some desc)
        ⟨rest.result, delay :: rest.sleeps, rest.attempts + 1⟩
  else
    ⟨.failure (terminalMessage max_retries last_exception), [], 0⟩
termination_by (max_retries + 1 - (attempt : Int)).toNat
decreasing_by
  simp_wf
  omega

/-- `invoke_agent(agent, question, max_retries, base_delay, max_delay)`:
creates a fresh `SQLHandler`, sets `attempt = 0` and `last_exception = None`,
and runs the retry loop. -/
def invoke_agent (agentOutcome : Nat → Outcome) (jitter : Nat → ℚ)
    (max_retries : Int) (base_delay max_delay : ℚ) : InvokeOutcome :=
  invoke_go agentOutcome jitter max_retries base_delay max_delay 0 SQLHandler.init none

/-- Loop guard fails (`attempt > max_retries`): the loop body is skipped and
the terminal message for the stored `last_exception` is returned. -/
theorem invoke_go_stop (agentOutcome : Nat → Outcome) (jitter : Nat → ℚ)
    (max_retries : Int) (base_delay max_delay : ℚ)
    (attempt : Nat) (handler : SQLHandler) (last_exception : Option String)
    (h : ¬ ((attempt : Int) ≤ max_retries)) :
    invoke_go agentOutcome jitter max_retries base_delay max_delay attempt handler
      last_exception
      = ⟨.failure (terminalMessage max_retries last_exception), [], 0⟩ := by
  rw [invoke_go]
  simp [h]

/-- Successful invocation: the loop returns at once with the handler state
after this invocation and the response output. -/
theorem invoke_go_success (agentOutcome : Nat → Outcome) (jitter : Nat → ℚ)
    (max_retries : Int) (base_delay max_delay : ℚ)
    (attempt : Nat) (handler : SQLHandler) (last_exception : Option String)
    (actions : List Action) (output : String)
    (h : (attempt : Int) ≤ max_retries)
    (hb : agentOutcome attempt = .success actions output) :
    invoke_go agentOutcome jitter max_retries base_delay max_delay attempt handler
      last_exception
      = ⟨.success (actions.foldl SQLHandler.on_agent_action handler).sql_query output,
         [], 1⟩ := by
  rw [invoke_go]
  simp [h, hb]

/-- Faulting invocation that exhausts the budget (`attempt + 1 > max_retries`):
the loop breaks without sleeping and returns the terminal message for this
fault. -/
theorem invoke_go_fault_last (agentOutcome : Nat → Outcome) (jitter : Nat → ℚ)
    (max_retries : Int) (base_delay max_delay : ℚ)
    (attempt : Nat) (handler : SQLHandler) (last_exception : Option String)
    (actions : List Action) (desc : String)
    (h : (attempt : Int) ≤ max_retries)
    (h2 : ((attempt + 1 : Nat) : Int) > max_retries)
    (hb : agentOutcome attempt = .fault actions desc) :
    invoke_go agentOutcome jitter max_retries base_delay max_delay attempt handler
      last_exception
      = ⟨.failure (terminalMessage max_retries (some desc)), [], 1⟩ := by
  rw [invoke_go]
  simp [h, hb, h2]
  omega

/-- Faulting invocation with budget remaining: one backoff delay is slept and
the loop continues with the incremented counter, the updated handler and the
fault stored as `last_exception`. -/
theorem invoke_go_fault_step (agentOutcome : Nat → Outcome) (jitter : Nat → ℚ)
    (max_retries : Int) (base_delay max_delay : ℚ)
    (attempt : Nat) (handler : SQLHandler) (last_exception : Option String)
    (actions : List Action) (desc : String)
    (h : (attempt : Int) ≤ max_retries)
    (h2 : ¬ (((attempt + 1 : Nat) : Int) > max_retries))
    (hb : agentOutcome attempt = .fault actions desc) :
    invoke_go agentOutcome jitter max_retries base_delay max_delay attempt handler
      last_exception
      = ⟨(invoke_go agentOutcome jitter max_retries base_delay max_delay (attempt + 1)
            (actions.foldl SQLHandler.on_agent_action handler) (some desc)).result,
         (if is_throttling desc then
            min (base_delay * 4 ^ attempt + jitter attempt) max_delay
          else
            min (base_delay * 2 ^ attempt + jitter attempt) max_delay)
           :: (invoke_go agentOutcome jitter max_retries base_delay max_delay (attempt + 1)
                (actions.foldl SQLHandler.on_agent_action handler) (some desc)).sleeps,
         (invoke_go agentOutcome jitter max_retries base_delay max_delay (attempt + 1)
            (actions.foldl SQLHandler.on_agent_action handler) (some desc)).attempts + 1⟩ := by
  rw [invoke_go]
  simp [h, hb, h2]
  omega

/-- A fault outcome is exactly one of the form `.fault o.actions o.faultDesc`. -/
theorem Outcome.isFault_iff (o : Outcome) :
    o.isFault = true ↔ o = .fault o.actions o.faultDesc := by
  cases o <;> simp [Outcome.isFault, Outcome.actions, Outcome.faultDesc]

/-- A non-fault outcome is a success with its own actions and output. -/
theorem Outcome.not_isFault_iff (o : Outcome) :
    o.isFault = false ↔ ∃ a out, o = .success a out := by
  cases o <;> simp [Outcome.isFault]

/-- `leadsWith` is the boolean test for being a leading block. -/
theorem leadsWith_iff (pat : List Char) : ∀ l : List Char,
    leadsWith pat l = true ↔ ∃ v, l = pat ++ v := by
  induction pat with
  | nil => intro l; simp [leadsWith]
  | cons a pa ih =>
    intro l
    cases l with
    | nil =>
      simp [leadsWith]
    | cons b lb =>
      simp only [leadsWith, Bool.and_eq_true, beq_iff_eq, ih, List.cons_append]
      constructor
      · rintro ⟨rfl, v, rfl⟩
        exact ⟨v, rfl⟩
      · rintro ⟨v, hv⟩
        obtain ⟨h1, h2⟩ := List.cons.inj hv
        exact ⟨h1.symm, v, h2⟩

/-- `occursIn` is the boolean test for containing a contiguous block. -/
theorem occursIn_iff (pat : List Char) : ∀ l : List Char,
    occursIn pat l = true ↔ ∃ u v, l = u ++ pat ++ v := by
  intro l
  induction l with
  | nil =>
    simp only [occursIn, leadsWith_iff]
    constructor
    · rintro ⟨v, hv⟩
      exact ⟨[], v, by simpa using hv⟩
    · rintro ⟨u, v, hv⟩
      cases u with
      | nil => exact ⟨v, by simpa using hv⟩
      | cons c u' => simp at hv
  | cons b lb ih =>
    simp only [occursIn, Bool.or_eq_true, leadsWith_iff, ih]
    constructor
    · rintro (⟨v, hv⟩ | ⟨u, v, hv⟩)
      · exact ⟨[], v, by simpa using hv⟩
      · exact ⟨b :: u, v, by simp [hv]⟩
    · rintro ⟨u, v, hv⟩
      cases u with
      | nil =>
        left
        exact ⟨v, by simpa using hv⟩
      | cons c u' =>
        right
        rw [List.cons_append, List.cons_append] at hv
        obtain ⟨h1, h2⟩ := List.cons.inj hv
        exact ⟨u', v, h2⟩

/-- Python's `pat in s` holds exactly when `pat` is a contiguous substring. -/
theorem pyIn_iff (pat s : String) :
    pyIn pat s = true ↔ ∃ u v, s.toList = u ++ pat.toList ++ v := by
  simpa [pyIn] using occursIn_iff pat.toList s.toList

/-- The most recent artifact captured by `"sql_db_query"` actions in a list
(later actions win), or `none` when no such action occurs. -/
def lastCapture : List Action → Option String
  | [] => none
  | a :: as =>
    match lastCapture as with
    | some q => some q
    | none => if a.tool = sql_db_query_tool then some a.tool_input else none

/-- Folding the callback over a list of actions leaves the most recently
captured query in `sql_query`, falling back to the initial state. -/
theorem foldl_on_agent_action_sql_query : ∀ (as : List Action) (handler : SQLHandler),
    (as.foldl SQLHandler.on_agent_action handler).sql_query
      = (lastCapture as).elim handler.sql_query some := by
  intro as
  induction as with
  | nil => intro handler; simp [lastCapture]
  | cons a as ih =>
    intro handler
    rw [List.foldl_cons, ih]
    cases hq : lastCapture as with
    | some q => simp [lastCapture, hq]
    | none =>
      simp only [lastCapture, hq, SQLHandler.on_agent_action]
      split <;> simp

/-- The actions fired on the shared handler during attempts
`t, t+1, ..., t+n-1`, in order. -/
def actionsUpTo (agentOutcome : Nat → Outcome) (t : Nat) : Nat → List Action
  | 0 => []
  | n + 1 => (agentOutcome t).actions ++ actionsUpTo agentOutcome (t + 1) n

/-- Run characterization when the first `i` attempts fault and attempt `i`
(0-based, i.e. the `i+1`-st) succeeds within the budget: the loop performs
`i+1` invocations and `i` sleeps and returns the handler state accumulated
over all `i+1` invocations together with the success output. -/
theorem invoke_go_success_run (agentOutcome : Nat → Outcome) (jitter : Nat → ℚ)
    (max_retries : Int) (base_delay max_delay : ℚ) :
    ∀ (i t : Nat) (handler : SQLHandler) (last_exception : Option String)
      (actions : List Action) (output : String),
      (∀ m, m < i → (agentOutcome (t + m)).isFault = true) →
      agentOutcome (t + i) = .success actions output →
      ((t + i : Nat) : Int) ≤ max_retries →
      ((invoke_go agentOutcome jitter max_retries base_delay max_delay t handler
          last_exception).result
        = .success ((actionsUpTo agentOutcome t (i + 1)).foldl
            SQLHandler.on_agent_action handler).sql_query output)
      ∧ (invoke_go agentOutcome jitter max_retries base_delay max_delay t handler
          last_exception).sleeps.length = i
      ∧ (invoke_go agentOutcome jitter max_retries base_delay max_delay t handler
          last_exception).attempts = i + 1 := by
  intro i
  induction i with
  | zero =>
    intro t handler last_exception actions output hf hb hle
    have ht : (t : Int) ≤ max_retries := by simpa using hle
    have hb' : agentOutcome t = .success actions output := by simpa using hb
    rw [invoke_go_success agentOutcome jitter max_retries base_delay max_delay t handler
      last_exception actions output ht hb']
    refine ⟨?_, rfl, rfl⟩
    simp [actionsUpTo, hb', Outcome.actions]
  | succ i ih =>
    intro t handler last_exception actions output hf hb hle
    have ht : (t : Int) ≤ max_retries := by omega
    have h2 : ¬ (((t + 1 : Nat) : Int) > max_retries) := by omega
    have hb0 : agentOutcome t
        = .fault (agentOutcome t).actions (agentOutcome t).faultDesc :=
      (Outcome.isFault_iff _).mp (by simpa using hf 0 (by omega))
    rw [invoke_go_fault_step agentOutcome jitter max_retries base_delay max_delay t handler
      last_exception _ _ ht h2 hb0]
    have hf' : ∀ m, m < i → (agentOutcome (t + 1 + m)).isFault = true := by
      intro m hm
      have h := hf (m + 1) (by omega)
      rwa [show t + (m + 1) = t + 1 + m by omega] at h
    have hb' : agentOutcome (t + 1 + i) = .success actions output := by
      rwa [show t + (i + 1) = t + 1 + i by omega] at hb
    have hle' : ((t + 1 + i : Nat) : Int) ≤ max_retries := by omega
    obtain ⟨hr, hs, ha⟩ := ih (t + 1)
      ((agentOutcome t).actions.foldl SQLHandler.on_agent_action handler)
      (some (agentOutcome t).faultDesc) actions output hf' hb' hle'
    refine ⟨?_, ?_, ?_⟩
    · have hact : actionsUpTo agentOutcome t (i + 1 + 1)
          = (agentOutcome t).actions ++ actionsUpTo agentOutcome (t + 1) (i + 1) := rfl
      simp only [hact, List.foldl_append]
      simpa using hr
    · simpa using hs
    · simpa using ha

/-- Run characterization when the agent faults on every attempt and the budget
is not yet exhausted at loop counter `t`: with `n` the remaining iteration
count, the loop performs `n` invocations and `n-1` sleeps and returns the
terminal message classified from the description of the final fault (the one
at attempt index `max_retries.toNat`). -/
theorem invoke_go_allFault (agentOutcome : Nat → Outcome) (jitter : Nat → ℚ)
    (max_retries : Int) (base_delay max_delay : ℚ)
    (hf : ∀ i, (agentOutcome i).isFault = true) :
    ∀ (n t : Nat) (handler : SQLHandler) (last_exception : Option String),
      (max_retries + 1 - (t : Int)).toNat = n →
      (t : Int) ≤ max_retries →
      ((invoke_go agentOutcome jitter max_retries base_delay max_delay t handler
          last_exception).result
        = .failure (terminalMessage max_retries
            (some ((agentOutcome max_retries.toNat).faultDesc))))
      ∧ (invoke_go agentOutcome jitter max_retries base_delay max_delay t handler
          last_exception).sleeps.length = n - 1
      ∧ (invoke_go agentOutcome jitter max_retries base_delay max_delay t handler
          last_exception).attempts = n := by
  intro n
  induction n with
  | zero =>
    intro t handler last_exception hn ht
    exfalso
    omega
  | succ n ih =>
    intro t handler last_exception hn ht
    have hb0 : agentOutcome t
        = .fault (agentOutcome t).actions (agentOutcome t).faultDesc :=
      (Outcome.isFault_iff _).mp (hf t)
    by_cases h2 : ((t + 1 : Nat) : Int) > max_retries
    · have htm : max_retries.toNat = t := by omega
      have hn0 : n = 0 := by omega
      rw [invoke_go_fault_last agentOutcome jitter max_retries base_delay max_delay t handler
        last_exception _ _ ht h2 hb0]
      exact ⟨by simp [htm], by simp [hn0], by simp [hn0]⟩
    · obtain ⟨hr, hs, ha⟩ := ih (t + 1)
        ((agentOutcome t).actions.foldl SQLHandler.on_agent_action handler)
        (some (agentOutcome t).faultDesc) (by omega) (by omega)
      rw [invoke_go_fault_step agentOutcome jitter max_retries base_delay max_delay t handler
        last_exception _ _ ht h2 hb0]
      have hn1 : 1 ≤ n := by omega
      refine ⟨by simpa using hr, ?_, ?_⟩
      · simp only [InvokeOutcome.sleeps, List.length_cons, hs]
        omega
      · simp only [InvokeOutcome.attempts, ha]

/-- The returned result does not depend on the jitter stream. -/
theorem invoke_go_result_jitter (agentOutcome : Nat → Outcome) (j1 j2 : Nat → ℚ)
    (max_retries : Int) (base_delay max_delay : ℚ) :
    ∀ (n t : Nat) (handler : SQLHandler) (last_exception : Option String),
      (max_retries + 1 - (t : Int)).toNat = n →
      (invoke_go agentOutcome j1 max_retries base_delay max_delay t handler
          last_exception).result
        = (invoke_go agentOutcome j2 max_retries base_delay max_delay t handler
            last_exception).result := by
  intro n
  induction n with
  | zero =>
    intro t handler last_exception hn
    have ht : ¬ ((t : Int) ≤ max_retries) := by omega
    rw [invoke_go_stop agentOutcome j1 max_retries base_delay max_delay t handler
      last_exception ht,
      invoke_go_stop agentOutcome j2 max_retries base_delay max_delay t handler
        last_exception ht]
  | succ n ih =>
    intro t handler last_exception hn
    by_cases ht : (t : Int) ≤ max_retries
    · cases hb : agentOutcome t with
      | success acts out =>
        rw [invoke_go_success agentOutcome j1 max_retries base_delay max_delay t handler
          last_exception acts out ht hb,
          invoke_go_success agentOutcome j2 max_retries base_delay max_delay t handler
            last_exception acts out ht hb]
      | fault acts d =>
        by_cases h2 : ((t + 1 : Nat) : Int) > max_retries
        · rw [invoke_go_fault_last agentOutcome j1 max_retries base_delay max_delay t handler
            last_exception acts d ht h2 hb,
            invoke_go_fault_last agentOutcome j2 max_retries base_delay max_delay t handler
              last_exception acts d ht h2 hb]
        · rw [invoke_go_fault_step agentOutcome j1 max_retries base_delay max_delay t handler
            last_exception acts d ht h2 hb,
            invoke_go_fault_step agentOutcome j2 max_retries base_delay max_delay t handler
              last_exception acts d ht h2 hb]
          simpa using ih (t + 1) (acts.foldl SQLHandler.on_agent_action handler) (some d)
            (by omega)
    · rw [invoke_go_stop agentOutcome j1 max_retries base_delay max_delay t handler
        last_exception ht,
        invoke_go_stop agentOutcome j2 max_retries base_delay max_delay t handler
          last_exception ht]

/-- The number of invocations performed depends only on the fault/success
pattern of the behaviour, never on fault descriptions, handler state, stored
exception or jitter. -/
theorem invoke_go_attempts_pattern (b b2 : Nat → Outcome) (j j2 : Nat → ℚ)
    (max_retries : Int) (base_delay max_delay : ℚ)
    (hp : ∀ i, (b i).isFault = (b2 i).isFault) :
    ∀ (n t : Nat) (h1 h2 : SQLHandler) (l1 l2 : Option String),
      (max_retries + 1 - (t : Int)).toNat = n →
      (invoke_go b j max_retries base_delay max_delay t h1 l1).attempts
        = (invoke_go b2 j2 max_retries base_delay max_delay t h2 l2).attempts := by
  intro n
  induction n with
  | zero =>
    intro t h1 h2 l1 l2 hn
    have ht : ¬ ((t : Int) ≤ max_retries) := by omega
    rw [invoke_go_stop b j max_retries base_delay max_delay t h1 l1 ht,
      invoke_go_stop b2 j2 max_retries base_delay max_delay t h2 l2 ht]
  | succ n ih =>
    intro t h1 h2 l1 l2 hn
    by_cases ht : (t : Int) ≤ max_retries
    · cases hb : b t with
      | success acts out =>
        have hnf : (b2 t).isFault = false := by rw [← hp]; simp [hb, Outcome.isFault]
        obtain ⟨acts2, out2, hb2⟩ := (Outcome.not_isFault_iff _).mp hnf
        rw [invoke_go_success b j max_retries base_delay max_delay t h1 l1 acts out ht hb,
          invoke_go_success b2 j2 max_retries base_delay max_delay t h2 l2 acts2 out2 ht hb2]
      | fault acts d =>
        have hif : (b2 t).isFault = true := by rw [← hp]; simp [hb, Outcome.isFault]
        have hb2 := (Outcome.isFault_iff _).mp hif
        by_cases hlim : ((t + 1 : Nat) : Int) > max_retries
        · rw [invoke_go_fault_last b j max_retries base_delay max_delay t h1 l1 acts d
            ht hlim hb,
            invoke_go_fault_last b2 j2 max_retries base_delay max_delay t h2 l2 _ _
              ht hlim hb2]
        · rw [invoke_go_fault_step b j max_retries base_delay max_delay t h1 l1 acts d
            ht hlim hb,
            invoke_go_fault_step b2 j2 max_retries base_delay max_delay t h2 l2 _ _
              ht hlim hb2]
          simpa using ih (t + 1) (acts.foldl SQLHandler.on_agent_action h1)
            ((b2 t).actions.foldl SQLHandler.on_agent_action h2) (some d)
            (some (b2 t).faultDesc) (by omega)
    · rw [invoke_go_stop b j max_retries base_delay max_delay t h1 l1 ht,
        invoke_go_stop b2 j2 max_retries base_delay max_delay t h2 l2 ht]

/-- If the first `i` attempts starting at loop counter `t` fault and the
budget extends through attempt `t + i`, at least `i + 1` invocations are
performed: a fault within the budget is always followed by a further attempt. -/
theorem invoke_go_attempts_ge (b : Nat → Outcome) (j : Nat → ℚ)
    (max_retries : Int) (base_delay max_delay : ℚ) :
    ∀ (i t : Nat) (handler : SQLHandler) (l : Option String),
      (∀ m, m < i → (b (t + m)).isFault = true) →
      ((t + i : Nat) : Int) ≤ max_retries →
      i + 1 ≤ (invoke_go b j max_retries base_delay max_delay t handler l).attempts := by
  intro i
  induction i with
  | zero =>
    intro t handler l hf hle
    have ht : (t : Int) ≤ max_retries := by omega
    cases hb : b t with
    | success acts out =>
      rw [invoke_go_success b j max_retries base_delay max_delay t handler l acts out ht hb]
    | fault acts d =>
      by_cases hlim : ((t + 1 : Nat) : Int) > max_retries
      · rw [invoke_go_fault_last b j max_retries base_delay max_delay t handler l acts d
          ht hlim hb]
      · rw [invoke_go_fault_step b j max_retries base_delay max_delay t handler l acts d
          ht hlim hb]
        simp
  | succ i ih =>
    intro t handler l hf hle
    have ht : (t : Int) ≤ max_retries := by omega
    have hlim : ¬ (((t + 1 : Nat) : Int) > max_retries) := by omega
    have hb0 : b t = .fault (b t).actions (b t).faultDesc :=
      (Outcome.isFault_iff _).mp (by simpa using hf 0 (by omega))
    rw [invoke_go_fault_step b j max_retries base_delay max_delay t handler l _ _
      ht hlim hb0]
    have hf2 : ∀ m, m < i → (b (t + 1 + m)).isFault = true := by
      intro m hm
      have h := hf (m + 1) (by omega)
      rwa [show t + (m + 1) = t + 1 + m by omega] at h
    have hrec := ih (t + 1) ((b t).actions.foldl SQLHandler.on_agent_action handler)
      (some (b t).faultDesc) hf2 (by omega)
    simp only [InvokeOutcome.attempts]
    omega

/-- The `i`-th recorded delay (0-based), when the first `i + 1` attempts all
fault within the budget, is exactly the backoff formula applied to the failed
attempt's description: throttling curve `base×4^i + jitter` or standard curve
`base×2^i + jitter`, capped at `max_delay`. -/
theorem invoke_go_sleeps_get (b : Nat → Outcome) (j : Nat → ℚ)
    (max_retries : Int) (base_delay max_delay : ℚ) :
    ∀ (i t : Nat) (handler : SQLHandler) (l : Option String) (acts : List Action)
      (d : String),
      (∀ m, m ≤ i → (b (t + m)).isFault = true) →
      b (t + i) = .fault acts d →
      ((t + i + 1 : Nat) : Int) ≤ max_retries →
      (invoke_go b j max_retries base_delay max_delay t handler l).sleeps[i]?
        = some (if is_throttling d then
            min (base_delay * 4 ^ (t + i) + j (t + i)) max_delay
          else
            min (base_delay * 2 ^ (t + i) + j (t + i)) max_delay) := by
  intro i
  induction i with
  | zero =>
    intro t handler l acts d hf hb hle
    have ht : (t : Int) ≤ max_retries := by omega
    have hlim : ¬ (((t + 1 : Nat) : Int) > max_retries) := by omega
    have hb' : b t = .fault acts d := by simpa using hb
    rw [invoke_go_fault_step b j max_retries base_delay max_delay t handler l acts d
      ht hlim hb']
    simp
  | succ i ih =>
    intro t handler l acts d hf hb hle
    have ht : (t : Int) ≤ max_retries := by omega
    have hlim : ¬ (((t + 1 : Nat) : Int) > max_retries) := by omega
    have hb0 : b t = .fault (b t).actions (b t).faultDesc :=
      (Outcome.isFault_iff _).mp (by simpa using hf 0 (by omega))
    rw [invoke_go_fault_step b j max_retries base_delay max_delay t handler l _ _
      ht hlim hb0]
    have hf2 : ∀ m, m ≤ i → (b (t + 1 + m)).isFault = true := by
      intro m hm
      have h := hf (m + 1) (by omega)
      rwa [show t + (m + 1) = t + 1 + m by omega] at h
    have hb2 : b (t + 1 + i) = .fault acts d := by
      rwa [show t + (i + 1) = t + 1 + i by omega] at hb
    have hrec := ih (t + 1) ((b t).actions.foldl SQLHandler.on_agent_action handler)
      (some (b t).faultDesc) acts d hf2 hb2 (by omega)
    simp only [InvokeOutcome.sleeps, List.getElem?_cons_succ]
    rwa [show t + 1 + i = t + (i + 1) by omega] at hrec

/-- Fault description used in concrete runs (contains no throttling marker). -/
def boomText : String := "boom"

/-- Fault description used in concrete runs (contains a throttling marker). -/
def throttleText : String := "ThrottlingException: Rate exceeded"

/-- Success output used in concrete runs. -/
def okText : String := "ok"

/-- Captured SQL text used in concrete runs. -/
def selectOneText : String := "SELECT 1"

/-- An agent that faults on every attempt with a non-throttling error and
fires no callbacks. -/
def allFaultAgent : Nat → Outcome := fun _ => Outcome.fault [] boomText

/-- An agent that faults on every attempt with a throttling error. -/
def allThrottleAgent : Nat → Outcome := fun _ => Outcome.fault [] throttleText

/-- An agent that faults once and then succeeds, firing no callbacks. -/
def oneFaultThenSuccessAgent : Nat → Outcome := fun n =>
  match n with
  | 0 => Outcome.fault [] boomText
  | _ + 1 => Outcome.success [] okText

/-- A callback action that captures a SQL query. -/
def sqlActionExample : Action := ⟨sql_db_query_tool, selectOneText⟩

/-- An agent whose first attempt captures a SQL query and then faults, and
whose second attempt succeeds without firing any callback. -/
def captureThenSuccessAgent : Nat → Outcome := fun n =>
  match n with
  | 0 => Outcome.fault [sqlActionExample] boomText
  | _ + 1 => Outcome.success [] okText

/-- The all-zero jitter stream. -/
def zeroJitter : Nat → ℚ := fun _ => 0

/-- A constant jitter stream with value 1/2 (inside both jitter bounds). -/
def halfJitter : Nat → ℚ := fun _ => 1 / 2

/-- Claim C1: for every call to `invoke_agent` (any agent behaviour, any
configuration), no fault escapes: the returned value is exactly one of the
two result shapes — the success pair or the failure pair — never both, and
the failure pair carries no artifact (`None` in the first component).  In the
embedding `invoke_agent` is a total function into `InvokeResult`, so no raw
unhandled fault can be delivered. -/
theorem claim_C1_result_shape (agentOutcome : Nat → Outcome) (jitter : Nat → ℚ)
    (max_retries : Int) (base_delay max_delay : ℚ) :
    Bool.xor
        (invoke_agent agentOutcome jitter max_retries base_delay
          max_delay).result.isSuccessShape
        (invoke_agent agentOutcome jitter max_retries base_delay
          max_delay).result.isFailureShape
      = true
    ∧ ((!(invoke_agent agentOutcome jitter max_retries base_delay
          max_delay).result.isFailureShape)
        || (invoke_agent agentOutcome jitter max_retries base_delay
            max_delay).result.toPair.fst.isNone)
      = true := by
  cases hr : (invoke_agent agentOutcome jitter max_retries base_delay max_delay).result with
  | success q o =>
    simp [hr, InvokeResult.isSuccessShape, InvokeResult.isFailureShape, InvokeResult.toPair]
  | failure m =>
    simp [hr, InvokeResult.isSuccessShape, InvokeResult.isFailureShape, InvokeResult.toPair]

/-- Claim C2, counterexample to the universally quantified form: with
`max_retries = -1` (a configuration Python accepts) and an agent that faults
on every attempt, the run performs zero sleeps, not `max_retries = -1` sleeps
as the claim demands. -/
theorem claim_C2_counterexample :
    (invoke_agent allFaultAgent zeroJitter (-1) 5 60).sleeps.length = 0
    ∧ ¬ (((invoke_agent allFaultAgent zeroJitter (-1) 5 60).sleeps.length : Int) = -1) := by
  have hstop := invoke_go_stop allFaultAgent zeroJitter (-1) 5 60 0 SQLHandler.init none
    (by norm_num)
  unfold invoke_agent
  rw [hstop]
  refine ⟨rfl, by norm_num⟩

/-- Claim C2 (amended with `max_retries ≥ 0`, as the counterexample forces):
if the agent faults on every attempt, `invoke_agent` performs exactly
`max_retries + 1` invocation attempts and exactly `max_retries` delays (none
after the final attempt), and returns a failure message with the artifact
absent. -/
theorem claim_C2_exhaustion (agentOutcome : Nat → Outcome) (jitter : Nat → ℚ)
    (max_retries : Int) (base_delay max_delay : ℚ)
    (hmr : 0 ≤ max_retries)
    (hf : ∀ i, (agentOutcome i).isFault = true) :
    (invoke_agent agentOutcome jitter max_retries base_delay max_delay).attempts
        = max_retries.toNat + 1
    ∧ (invoke_agent agentOutcome jitter max_retries base_delay max_delay).sleeps.length
        = max_retries.toNat
    ∧ ∃ msg, (invoke_agent agentOutcome jitter max_retries base_delay max_delay).result
        = .failure msg := by
  obtain ⟨hr, hs, ha⟩ := invoke_go_allFault agentOutcome jitter max_retries base_delay
    max_delay hf (max_retries.toNat + 1) 0 SQLHandler.init none (by omega) (by omega)
  unfold invoke_agent
  exact ⟨ha, by omega, ⟨_, hr⟩⟩

/-- Witness for C2 at a concrete input: five retries, always-faulting agent. -/
theorem claim_C2_exhaustion_witness :
    (0 : Int) ≤ 5
    ∧ ((invoke_agent allFaultAgent zeroJitter 5 5 60).attempts = (5 : Int).toNat + 1
      ∧ (invoke_agent allFaultAgent zeroJitter 5 5 60).sleeps.length = (5 : Int).toNat
      ∧ ∃ msg, (invoke_agent allFaultAgent zeroJitter 5 5 60).result = .failure msg) :=
  ⟨by norm_num,
    claim_C2_exhaustion allFaultAgent zeroJitter 5 5 60 (by norm_num) (fun _ => rfl)⟩

/-- Claim C3: if the agent faults on the first `k - 1` attempts and succeeds
on attempt `k ≤ max_retries + 1`, the run performs exactly `k` invocation
attempts and `k - 1` delays and returns the success pair with the agent
output; no failure message is produced (the result has the success shape). -/
theorem claim_C3_success_on_attempt_k (agentOutcome : Nat → Outcome) (jitter : Nat → ℚ)
    (max_retries : Int) (base_delay max_delay : ℚ) (k : Nat)
    (acts : List Action) (output : String)
    (hk : 1 ≤ k)
    (hkle : (k : Int) ≤ max_retries + 1)
    (hf : ∀ i, i < k - 1 → (agentOutcome i).isFault = true)
    (hs : agentOutcome (k - 1) = .success acts output) :
    (invoke_agent agentOutcome jitter max_retries base_delay max_delay).attempts = k
    ∧ (invoke_agent agentOutcome jitter max_retries base_delay max_delay).sleeps.length
        = k - 1
    ∧ ∃ q, (invoke_agent agentOutcome jitter max_retries base_delay max_delay).result
        = .success q output := by
  obtain ⟨hr, hsl, ha⟩ := invoke_go_success_run agentOutcome jitter max_retries base_delay
    max_delay (k - 1) 0 SQLHandler.init none acts output
    (fun m hm => by simpa using hf m (by omega))
    (by simpa using hs) (by omega)
  unfold invoke_agent
  exact ⟨by omega, hsl, ⟨_, hr⟩⟩

/-- Witness for C3 at a concrete input: one fault, then success on attempt 2. -/
theorem claim_C3_witness :
    1 ≤ 2
    ∧ ((2 : Int) ≤ 5 + 1)
    ∧ ((invoke_agent oneFaultThenSuccessAgent zeroJitter 5 5 60).attempts = 2
      ∧ (invoke_agent oneFaultThenSuccessAgent zeroJitter 5 5 60).sleeps.length = 2 - 1
      ∧ ∃ q, (invoke_agent oneFaultThenSuccessAgent zeroJitter 5 5 60).result
          = .success q okText) :=
  ⟨by norm_num, by norm_num,
    claim_C3_success_on_attempt_k oneFaultThenSuccessAgent zeroJitter 5 5 60 2 [] okText
      (by norm_num) (by norm_num)
      (fun i hi => by
        have h0 : i = 0 := by omega
        subst h0
        rfl)
      rfl⟩

/-- Claim C5: the fault is classified as throttling exactly when its textual
description contains the literal marker `"ThrottlingException"` or the literal
marker `"Too many requests"` as a contiguous substring; the classifier is a
function of the description string alone (the only inspection of the fault). -/
theorem claim_C5_throttling_classification (s : String) :
    is_throttling s = true
      ↔ ((∃ u v, s.toList = u ++ throttlingMarker1.toList ++ v)
        ∨ (∃ u v, s.toList = u ++ throttlingMarker2.toList ++ v)) := by
  simp [is_throttling, Bool.or_eq_true, pyIn_iff]

/-- Claim C10: the returned result of `invoke_agent` is independent of the
sampled jitter: two runs with the same agent behaviour and configuration but
arbitrary different jitter streams return the same (artifact, message) value;
jitter only changes the recorded sleep durations. -/
theorem claim_C10_jitter_independent (agentOutcome : Nat → Outcome) (j1 j2 : Nat → ℚ)
    (max_retries : Int) (base_delay max_delay : ℚ) :
    (invoke_agent agentOutcome j1 max_retries base_delay max_delay).result
      = (invoke_agent agentOutcome j2 max_retries base_delay max_delay).result := by
  unfold invoke_agent
  exact invoke_go_result_jitter agentOutcome j1 j2 max_retries base_delay max_delay
    ((max_retries + 1).toNat) 0 SQLHandler.init none (by omega)

/-- Claim C4: for every attempt number `a` in `[1, max_retries]` whose first
`a` attempts fault, and every jitter sample within its bound, the delay slept
before retry `a + 1` equals `min(base_delay × 4^(a-1) + jitter, max_delay)`
when the fault at attempt `a` is classified as throttling (jitter drawn from
`[0, 2]`) and `min(base_delay × 2^(a-1) + jitter, max_delay)` otherwise
(jitter drawn from `[0, 1]`); in both cases the delay never exceeds
`max_delay`. -/
theorem claim_C4_backoff_delay (agentOutcome : Nat → Outcome) (jitter : Nat → ℚ)
    (max_retries : Int) (base_delay max_delay : ℚ) (a : Nat)
    (acts : List Action) (d : String)
    (ha1 : 1 ≤ a)
    (ha2 : (a : Int) ≤ max_retries)
    (hf : ∀ i, i < a → (agentOutcome i).isFault = true)
    (hd : agentOutcome (a - 1) = .fault acts d)
    (_hjt : is_throttling d = true → 0 ≤ jitter (a - 1) ∧ jitter (a - 1) ≤ 2)
    (_hjs : is_throttling d = false → 0 ≤ jitter (a - 1) ∧ jitter (a - 1) ≤ 1) :
    ((invoke_agent agentOutcome jitter max_retries base_delay max_delay).sleeps[a - 1]?
      = some (if is_throttling d then
          min (base_delay * 4 ^ (a - 1) + jitter (a - 1)) max_delay
        else
          min (base_delay * 2 ^ (a - 1) + jitter (a - 1)) max_delay))
    ∧ (if is_throttling d then
          min (base_delay * 4 ^ (a - 1) + jitter (a - 1)) max_delay
        else
          min (base_delay * 2 ^ (a - 1) + jitter (a - 1)) max_delay) ≤ max_delay := by
  have h := invoke_go_sleeps_get agentOutcome jitter max_retries base_delay max_delay
    (a - 1) 0 SQLHandler.init none acts d
    (fun m hm => by simpa using hf m (by omega))
    (by simpa using hd)
    (by omega)
  constructor
  · unfold invoke_agent
    simpa using h
  · split <;> exact min_le_right _ _

/-- Witness for C4 at a concrete input: first attempt faults without a
throttling marker, jitter 1/2. -/
theorem claim_C4_witness :
    1 ≤ 1
    ∧ ((1 : Int) ≤ 5)
    ∧ (((invoke_agent allFaultAgent halfJitter 5 5 60).sleeps[1 - 1]?
        = some (if is_throttling boomText then
            min (5 * 4 ^ (1 - 1) + halfJitter (1 - 1)) 60
          else
            min (5 * 2 ^ (1 - 1) + halfJitter (1 - 1)) 60))
      ∧ (if is_throttling boomText then
            min (5 * 4 ^ (1 - 1) + halfJitter (1 - 1)) 60
          else
            min (5 * 2 ^ (1 - 1) + halfJitter (1 - 1)) 60) ≤ 60) :=
  ⟨by norm_num, by norm_num,
    claim_C4_backoff_delay allFaultAgent halfJitter 5 5 60 1 [] boomText
      (by norm_num) (by norm_num) (fun _ _ => rfl) rfl
      (fun h => absurd h (by decide))
      (fun _ => by constructor <;> norm_num [halfJitter])⟩

/-- Claim C6: on retry exhaustion the terminal failure message is determined
solely by classifying the last observed fault: with a throttling marker in its
description it is the fixed throttling text (independent of attempt count and
configuration), otherwise it embeds the exact `max_retries` value and the
exact last fault description in the form
`"Unable to get a response from the agent after {max_retries} attempts. Error: {description}"`. -/
theorem claim_C6_terminal_message (agentOutcome : Nat → Outcome) (jitter : Nat → ℚ)
    (max_retries : Int) (base_delay max_delay : ℚ)
    (hmr : 0 ≤ max_retries)
    (hf : ∀ i, (agentOutcome i).isFault = true) :
    (invoke_agent agentOutcome jitter max_retries base_delay max_delay).result
      = .failure (if is_throttling ((agentOutcome max_retries.toNat).faultDesc) then
          ("Unable to get a response from the agent due to service throttling. The service is currently experiencing high demand. Please try again in a few minutes or reduce request frequency.")
        else
          ("Unable to get a response from the agent after ") ++ toString max_retries
            ++ (" attempts. Error: ") ++ (agentOutcome max_retries.toNat).faultDesc) := by
  obtain ⟨hr, hs, ha⟩ := invoke_go_allFault agentOutcome jitter max_retries base_delay
    max_delay hf (max_retries.toNat + 1) 0 SQLHandler.init none (by omega) (by omega)
  unfold invoke_agent
  rw [hr]
  simp only [terminalMessage, strOfLastException, throttlingTerminalText,
    genericTerminalText1, genericTerminalText2]

/-- Witness for C6 at a concrete input: two retries, always-faulting agent
with a non-throttling description; the message embeds `max_retries` and the
description. -/
theorem claim_C6_witness :
    (0 : Int) ≤ 2
    ∧ (invoke_agent allFaultAgent zeroJitter 2 5 60).result
        = .failure ("Unable to get a response from the agent after 2 attempts. Error: boom") := by
  refine ⟨by norm_num, ?_⟩
  have h := claim_C6_terminal_message allFaultAgent zeroJitter 2 5 60 (by norm_num)
    (fun _ => rfl)
  rw [h]
  decide

/-- Claim C7: a fault on attempt `a ≤ max_retries` is always followed by a
further attempt — no fault is fail-fast — and the fault classification never
changes whether a retry occurs or how many invocations are made: any two
behaviours with the same fault/success pattern (differing arbitrarily in
descriptions, hence in throttling classification, delays and messages) perform
the same number of invocation attempts. -/
theorem claim_C7_no_fail_fast (b b2 : Nat → Outcome) (j j2 : Nat → ℚ)
    (max_retries : Int) (base_delay max_delay : ℚ) (a : Nat)
    (ha1 : 1 ≤ a)
    (ha2 : (a : Int) ≤ max_retries)
    (hf : ∀ i, i < a → (b i).isFault = true)
    (hp : ∀ i, (b i).isFault = (b2 i).isFault) :
    a + 1 ≤ (invoke_agent b j max_retries base_delay max_delay).attempts
    ∧ (invoke_agent b j max_retries base_delay max_delay).attempts
        = (invoke_agent b2 j2 max_retries base_delay max_delay).attempts := by
  constructor
  · unfold invoke_agent
    exact invoke_go_attempts_ge b j max_retries base_delay max_delay a 0 SQLHandler.init
      none (fun m hm => by simpa using hf m hm) (by omega)
  · unfold invoke_agent
    exact invoke_go_attempts_pattern b b2 j j2 max_retries base_delay max_delay hp
      ((max_retries + 1).toNat) 0 SQLHandler.init SQLHandler.init none none (by omega)

/-- Witness for C7 at a concrete input: a non-throttling always-faulting agent
and a throttling always-faulting agent have the same fault pattern; both are
retried and make the same number of attempts. -/
theorem claim_C7_witness :
    1 ≤ 1
    ∧ ((1 : Int) ≤ 3)
    ∧ (1 + 1 ≤ (invoke_agent allFaultAgent zeroJitter 3 5 60).attempts
      ∧ (invoke_agent allFaultAgent zeroJitter 3 5 60).attempts
          = (invoke_agent allThrottleAgent halfJitter 3 5 60).attempts) :=
  ⟨by norm_num, by norm_num,
    claim_C7_no_fail_fast allFaultAgent allThrottleAgent zeroJitter halfJitter 3 5 60 1
      (by norm_num) (by norm_num) (fun _ _ => rfl) (fun _ => rfl)⟩

/-- Claim C8: a single `SQLHandler` is created before the loop and shared by
every attempt, and its capture is never reset between attempts; hence the
artifact returned on a successful attempt `k` is the most recently captured
artifact across the actions of all `k` attempts of the call — in particular a
success whose own invocation emitted no artifact still returns an artifact
captured during an earlier failed attempt. -/
theorem claim_C8_shared_handler (agentOutcome : Nat → Outcome) (jitter : Nat → ℚ)
    (max_retries : Int) (base_delay max_delay : ℚ) (k : Nat)
    (acts : List Action) (output : String)
    (hk : 1 ≤ k)
    (hkle : (k : Int) ≤ max_retries + 1)
    (hf : ∀ i, i < k - 1 → (agentOutcome i).isFault = true)
    (hs : agentOutcome (k - 1) = .success acts output) :
    (invoke_agent agentOutcome jitter max_retries base_delay max_delay).result
      = .success (lastCapture (actionsUpTo agentOutcome 0 k)) output := by
  obtain ⟨hr, hsl, ha⟩ := invoke_go_success_run agentOutcome jitter max_retries base_delay
    max_delay (k - 1) 0 SQLHandler.init none acts output
    (fun m hm => by simpa using hf m (by omega))
    (by simpa using hs) (by omega)
  rw [show k - 1 + 1 = k by omega] at hr
  unfold invoke_agent
  rw [hr, foldl_on_agent_action_sql_query]
  cases hq : lastCapture (actionsUpTo agentOutcome 0 k) <;> simp [hq, SQLHandler.init]

/-- Witness for C8 at a concrete input: the first attempt captures
`"SELECT 1"` and faults; the second attempt succeeds while emitting nothing,
yet the returned artifact is the one captured during the failed attempt. -/
theorem claim_C8_witness :
    1 ≤ 2
    ∧ ((2 : Int) ≤ 5 + 1)
    ∧ (invoke_agent captureThenSuccessAgent zeroJitter 5 5 60).result
        = .success (some selectOneText) okText := by
  refine ⟨by norm_num, by norm_num, ?_⟩
  have h := claim_C8_shared_handler captureThenSuccessAgent zeroJitter 5 5 60 2 [] okText
    (by norm_num) (by norm_num)
    (fun i hi => by
      have h0 : i = 0 := by omega
      subst h0
      rfl)
    rfl
  rw [h]
  decide

/-- Claim C9: with `max_retries < 0` the retry loop body never executes: the
agent is invoked zero times, nothing is slept, and the result is
`(None, m)` where `m` is the generic terminal message embedding the given
`max_retries` value and `"None"` (Python's `str(None)`) as the description of
the absent last fault; with `max_retries = 0` exactly one attempt is made. -/
theorem claim_C9_negative_budget (agentOutcome : Nat → Outcome) (jitter : Nat → ℚ)
    (max_retries : Int) (base_delay max_delay : ℚ)
    (hmr : max_retries < 0) :
    (invoke_agent agentOutcome jitter max_retries base_delay max_delay).attempts = 0
    ∧ (invoke_agent agentOutcome jitter max_retries base_delay max_delay).sleeps = []
    ∧ (invoke_agent agentOutcome jitter max_retries base_delay max_delay).result
        = .failure (("Unable to get a response from the agent after ")
            ++ toString max_retries ++ (" attempts. Error: ") ++ ("None"))
    ∧ (invoke_agent agentOutcome jitter 0 base_delay max_delay).attempts = 1 := by
  have hstop := invoke_go_stop agentOutcome jitter max_retries base_delay max_delay 0
    SQLHandler.init none (by omega)
  refine ⟨?_, ?_, ?_, ?_⟩
  · unfold invoke_agent
    rw [hstop]
  · unfold invoke_agent
    rw [hstop]
  · unfold invoke_agent
    rw [hstop]
    simp only [terminalMessage, strOfLastException, noneLiteral, genericTerminalText1,
      genericTerminalText2]
    rw [if_neg (by decide : ¬ (is_throttling ("None") = true))]
  · cases hb : agentOutcome 0 with
    | success acts out =>
      unfold invoke_agent
      rw [invoke_go_success agentOutcome jitter 0 base_delay max_delay 0 SQLHandler.init
        none acts out (by norm_num) hb]
    | fault acts d =>
      unfold invoke_agent
      rw [invoke_go_fault_last agentOutcome jitter 0 base_delay max_delay 0 SQLHandler.init
        none acts d (by norm_num) (by norm_num) hb]

/-- Witness for C9 at a concrete input: `max_retries = -1`. -/
theorem claim_C9_witness :
    (-1 : Int) < 0
    ∧ ((invoke_agent allFaultAgent zeroJitter (-1) 5 60).attempts = 0
      ∧ (invoke_agent allFaultAgent zeroJitter (-1) 5 60).sleeps = []
      ∧ (invoke_agent allFaultAgent zeroJitter (-1) 5 60).result
          = .failure ("Unable to get a response from the agent after -1 attempts. Error: None")
      ∧ (invoke_agent allFaultAgent zeroJitter 0 5 60).attempts = 1) := by
  refine ⟨by norm_num, ?_⟩
  obtain ⟨h1, h2, h3, h4⟩ := claim_C9_negative_budget allFaultAgent zeroJitter (-1) 5 60
    (by norm_num)
  refine ⟨h1, h2, ?_, h4⟩
  rw [h3]
  decide

end TextToSQL
